import Mathlib

/-!
Verification of the core pipeline of the `shopify-ai-analytics` service
(`src/ai_service`), as a shallow embedding in Lean 4.

Numeric model: all Python/numpy arithmetic is embedded over `ℚ` (the spec's
§5 requires the regression/forecast arithmetic to be deterministic in its
input rows; we take exact rational arithmetic as that deterministic
semantics).  Python `round(x, n)` is banker's rounding (round half to even),
embedded by `pyRoundInt`; Python `int(x)` truncates toward zero, embedded by
`pyTrunc`.  Python dictionaries are embedded as structures with `Option`
fields (a missing key is `none`); insertion-ordered dicts used as maps
(`products`, `forecasts` in `query_executor.py`) are embedded as ordered
association lists.  A raised Python exception is an `Except.error` carrying
the message.
-/

/-- Python `round(q, 0)` on an exact rational: round half to even. -/

def pyRoundInt (q : ℚ) : ℤ :=
  if q - ⌊q⌋ < 1/2 then ⌊q⌋
  else if q - ⌊q⌋ > 1/2 then ⌊q⌋ + 1
  else if ⌊q⌋ % 2 = 0 then ⌊q⌋ else ⌊q⌋ + 1

/-- Python `round(q, 0)` as a rational (Python returns a float with
integral value). -/

def pyRound0 (q : ℚ) : ℚ := pyRoundInt q

/-- Python `round(q, 1)`: banker's rounding to one decimal place. -/

def pyRound1 (q : ℚ) : ℚ := (pyRoundInt (q * 10) : ℚ) / 10

/-- Python `int(q)`: truncation toward zero. -/

def pyTrunc (q : ℚ) : ℤ := if 0 ≤ q then ⌊q⌋ else -⌊-q⌋

/-- Embeds `np.mean` of a list of rationals. -/

def listMean (l : List ℚ) : ℚ := l.sum / (l.length : ℚ)

/-- Ordered association-list lookup (first binding wins), embedding lookup
in an insertion-ordered Python dict. -/

def alookup {β : Type} (k : String) : List (String × β) → Option β
  | [] => none
  | (k', v) :: t => if k' = k then some v else alookup k t

/-!
## Data model of the Query Executor (`agent/query_executor.py`)

Execution rows are dictionaries; the executor reads `product_name` (default
`"unknown"` when grouping, plain `get` when merging), `quantity` (default 0)
and writes `forecast`.  All other keys are opaque payload, kept in `extra`.
-/

/-- A per-product forecast object (`forecasts[product_name]` in
`_apply_forecasting`, and the mock forecast in `orchestrator.py`). -/

structure Forecast where
  daily_velocity : ℚ
  forecast_quantity : ℚ
  safety_stock : ℚ
  total_needed : ℚ
  forecast_days : ℕ
  confidence : ℚ
deriving DecidableEq, Repr

/-- One execution-data row. -/

structure XRow where
  product_name : Option String
  quantity : Option ℚ
  forecast : Option Forecast
  extra : List (String × String)
deriving DecidableEq, Repr

/-- A `forecast_config` dictionary (all keys optional). -/

structure FConfig where
  method : Option String := none
  historical_days : Option ℕ := none
  forecast_days : Option ℕ := none
deriving DecidableEq, Repr

/-- The part of a plan dictionary the executor reads:
`plan.get("requires_forecast")` and `plan.get("forecast_config", {})`. -/

structure ExecPlan where
  requires_forecast : Bool
  forecast_config : Option FConfig
deriving DecidableEq, Repr

/-- Result of `_apply_forecasting`: on nonempty data
`{"forecasts": ..., "method": "linear_regression", "config": ...}`;
on empty data `{"forecast": [], "method": "none"}` (note: no `"forecasts"`
key, so `forecasts` is the empty map there). -/

structure ApplyResult where
  forecasts : List (String × Forecast)
  method : String
deriving DecidableEq, Repr

/-- The executor's result dictionary. -/

structure ExecResult where
  data : List XRow
  forecast_applied : Bool
  row_count : ℕ
  error : Option String
deriving DecidableEq, Repr

/-- Embeds `_calculate_linear_regression(X, y)` (lines 277-289):
means, `numerator = np.sum((X - X_mean) * (y - y_mean))`,
`denominator = np.sum((X - X_mean) ** 2)`,
`slope = numerator / denominator if denominator != 0 else 0`,
`intercept = y_mean - slope * X_mean`. -/

def calcLinReg (X y : List ℚ) : ℚ × ℚ :=
  let n : ℚ := (X.length : ℚ)
  let xMean := X.sum / n
  let yMean := y.sum / n
  let numer := ((X.zip y).map (fun p => (p.1 - xMean) * (p.2 - yMean))).sum
  let denom := (X.map (fun x => (x - xMean) ^ 2)).sum
  let slope := if denom ≠ 0 then numer / denom else 0
  let intercept := yMean - slope * xMean
  (slope, intercept)

/-- numpy elementwise subtraction of two 1-d arrays: defined when the
shapes agree or one operand has length 1 (broadcasting); otherwise it
raises `ValueError: operands could not be broadcast together`. -/

def npSub (a b : List ℚ) : Except String (List ℚ) :=
  if a.length = b.length then .ok ((a.zip b).map (fun p => p.1 - p.2))
  else if b.length = 1 then .ok (a.map (fun x => x - b.headI))
  else if a.length = 1 then .ok (b.map (fun y => a.headI - y))
  else .error "ValueError: operands could not be broadcast together"

/-- Embeds `_calculate_forecast_confidence(actual, predicted)` (lines 291-307).
The initial `if len(actual) != len(predicted): predicted = predicted[:len(actual)]`
only truncates a longer `predicted`; a shorter one is left short and the
numpy subtraction then raises unless it can broadcast. -/

def calcForecastConfidence (actual predicted : List ℚ) : Except String ℚ := do
  let predicted := if actual.length ≠ predicted.length then predicted.take actual.length else predicted
  let diffs ← npSub actual predicted
  let ssRes := (diffs.map (fun d => d ^ 2)).sum
  let aMean := listMean actual
  let ssTot := (actual.map (fun a => (a - aMean) ^ 2)).sum
  let r2 := if ssTot ≠ 0 then 1 - ssRes / ssTot else 0
  pure (max 0 (min 1 r2))

/-- The zero-based time index `np.arange(n)` as rationals. -/

def indexList (n : ℕ) : List ℚ := (List.range n).map (fun i : ℕ => (i : ℚ))

/-- The projected future points of `_apply_forecasting` (lines 249-252):
`future_X = np.arange(n, n + forecast_days)`,
`predictions = np.maximum(slope * future_X + intercept, 0)`. -/

def codePredictions (slope intercept : ℚ) (n fd : ℕ) : List ℚ :=
  (List.range fd).map (fun i => max (slope * ((n + i : ℕ) : ℚ) + intercept) 0)

/-- The body of the per-product loop of `_apply_forecasting`
(lines 234-269) for one product group, with `m` the configured
`settings.SAFETY_STOCK_MULTIPLIER`.  Returns `none` for a skipped group
(fewer than 7 observations, the `continue`). -/

def forecastGroup (m : ℚ) (cfg : FConfig) (rows : List XRow) : Except String (Option Forecast) :=
  let quantities := rows.map (fun r => r.quantity.getD 0)
  if quantities.length < 7 then .ok none
  else
    let n := quantities.length
    let slope := (calcLinReg (indexList n) quantities).1
    let intercept := (calcLinReg (indexList n) quantities).2
    let fd := cfg.forecast_days.getD 30
    let predictions := codePredictions slope intercept n fd
    let dailyVelocity :=
      if 30 ≤ n then listMean (quantities.drop (n - 30)) else listMean quantities
    let totalForecast := predictions.sum
    let safetyStock := totalForecast * (m - 1)
    let totalWithSafety := totalForecast + safetyStock
    match calcForecastConfidence quantities (predictions.take n) with
    | .error e => .error e
    | .ok conf => .ok (some
        { daily_velocity := pyRound1 dailyVelocity
          forecast_quantity := pyRound0 totalForecast
          safety_stock := pyRound0 safetyStock
          total_needed := pyRound0 totalWithSafety
          forecast_days := fd
          confidence := conf })

/-- Grouping key: `row.get("product_name", "unknown")`. -/

def groupKey (r : XRow) : String := r.product_name.getD "unknown"

/-- Append row `r` to the group keyed `k`, creating the group at the end
when absent — dict insertion order. -/

def insertGroup (k : String) (r : XRow) : List (String × List XRow) → List (String × List XRow)
  | [] => [(k, [r])]
  | (k', rs) :: t => if k' = k then (k', rs ++ [r]) :: t else (k', rs) :: insertGroup k r t

/-- The grouping loop of `_apply_forecasting` (lines 225-230). -/

def groupByProduct (data : List XRow) : List (String × List XRow) :=
  data.foldl (fun acc r => insertGroup (groupKey r) r acc) []

/-- The per-product loop over the grouped data, accumulating the
`forecasts` dict; the first group that raises aborts the whole call. -/

def forecastGroups (m : ℚ) (cfg : FConfig) : List (String × List XRow) → Except String (List (String × Forecast))
  | [] => .ok []
  | (k, rows) :: t =>
    match forecastGroup m cfg rows with
    | .error e => .error e
    | .ok none => forecastGroups m cfg t
    | .ok (some f) =>
      match forecastGroups m cfg t with
      | .error e => .error e
      | .ok fx => .ok ((k, f) :: fx)

/-- Embeds `_apply_forecasting(data, config)` (lines 202-275). -/

def applyForecasting (m : ℚ) (data : List XRow) (cfg : FConfig) : Except String ApplyResult :=
  if data.isEmpty then .ok { forecasts := [], method := "none" }
  else
    match forecastGroups m cfg (groupByProduct data) with
    | .error e => .error e
    | .ok fx => .ok { forecasts := fx, method := "linear_regression" }

/-- The per-row update of `_merge_forecast_with_data`: look the row's
plain `row.get("product_name")` up in the forecasts dict and set the
`forecast` key on a hit. -/

def mergeRow (fx : List (String × Forecast)) (r : XRow) : XRow :=
  match r.product_name with
  | some p =>
    match alookup p fx with
    | some f => { r with forecast := some f }
    | none => r
  | none => r

/-- Embeds `_merge_forecast_with_data(data, forecast)` (lines 309-323). -/

def mergeForecastWithData (data : List XRow) (res : ApplyResult) : List XRow :=
  data.map (mergeRow res.forecasts)

/-- The forecasting part of `execute` (lines 53-92), parametrized by the
acquired rows `data` (synthetic or backend rows).  The `try`/`except`
catches any exception — in this fragment only `_apply_forecasting` can
raise — and converts it to the error result of lines 87-92. -/

def executeOnData (m : ℚ) (data : List XRow) (plan : ExecPlan) : ExecResult :=
  if plan.requires_forecast then
    match applyForecasting m data (plan.forecast_config.getD {}) with
    | .ok fr =>
      let newData := mergeForecastWithData data fr
      { data := newData, forecast_applied := true, row_count := newData.length, error := none }
    | .error e => { data := [], forecast_applied := false, row_count := 0, error := some e }
  else
    { data := data, forecast_applied := false, row_count := data.length, error := none }

/-!
## Spec-side regression definitions

These follow the wording of spec §4.4 steps 3 and 7 (and the Forecast data
model): OLS of quantity against a zero-based time index, and confidence =
R² of the fit **over the observed window** — residuals between the observed
quantities and the fitted values at the observed time indices. They are
deliberately written over `Finset.range` sums, to be compared with the
list-program embedding of the source.
-/

/-- Mean of the observed time indices `0, …, n-1`. -/

def specXMean (n : ℕ) : ℚ := (∑ i in Finset.range n, (i : ℚ)) / n

/-- Mean of the observed quantities. -/

def specYMean (ys : List ℚ) : ℚ := (∑ i in Finset.range ys.length, ys.getD i 0) / ys.length

/-- Spec sum `Σ((x−x̄)(y−ȳ))` over the observed window. -/

def specNum (ys : List ℚ) : ℚ :=
  ∑ i in Finset.range ys.length, ((i : ℚ) - specXMean ys.length) * (ys.getD i 0 - specYMean ys)

/-- Spec sum `Σ((x−x̄)²)` over the observed window. -/

def specDen (ys : List ℚ) : ℚ :=
  ∑ i in Finset.range ys.length, ((i : ℚ) - specXMean ys.length) ^ 2

/-- Spec slope: `Σ((x−x̄)(y−ȳ)) / Σ((x−x̄)²)`, 0 when the denominator is 0. -/

def specSlope (ys : List ℚ) : ℚ :=
  if specDen ys = 0 then 0 else specNum ys / specDen ys

/-- Spec intercept: `ȳ − slope·x̄`. -/

def specIntercept (ys : List ℚ) : ℚ := specYMean ys - specSlope ys * specXMean ys.length

/-- Spec confidence: R² of the fit over the observed window,
`1 − SS_res/SS_tot` with the residuals taken against the fitted values at
the observed indices, clamped to [0,1], and 0 when `SS_tot` is 0. -/

def specR2 (ys : List ℚ) : ℚ :=
  let fit := fun i : ℕ => specSlope ys * i + specIntercept ys
  let ssRes := ∑ i in Finset.range ys.length, (ys.getD i 0 - fit i) ^ 2
  let ssTot := ∑ i in Finset.range ys.length, (ys.getD i 0 - specYMean ys) ^ 2
  if ssTot = 0 then 0 else max 0 (min 1 (1 - ssRes / ssTot))

/-!
## The mock orchestrator (`agent/orchestrator.py`) and the service boundary
(`main.py`)

`main.py` imports `AgentOrchestrator` from `agent/orchestrator.py` — the
"FREE MOCK MODE" orchestrator — and wires it to the `/api/v1/query`
endpoint.  Its five stages are local deterministic methods; the randomness
of `_generate_synthetic_data` (`random.randint(-50, 50)` twice and
`random.uniform(20, 80)` once per product) is passed in as the parameter
`gens : ℕ → ℤ × ℤ × ℚ`, one triple per product index.

The `entities` sub-dictionary built by `_mock_intent_classification`
(regex product/time extraction) is read by no later stage and by no claim;
it is omitted from the embedded `Intent`.
-/

/-- An Intent as produced by the classifiers (entities omitted, see above). -/

structure Intent where
  domain : String
  confidence : ℚ
  time_range : String
  requires_forecast : Bool
deriving DecidableEq, Repr

/-- A plan as produced by `_mock_query_planning` / the planner. -/

structure MPlan where
  data_sources : List String
  primary_metric : String
  aggregations : List String
  filters : List (String × String)
  requires_forecast : Bool
  forecast_config : Option FConfig
  group_by : List String
deriving DecidableEq, Repr

/-- A row of the mock synthetic data (`_generate_synthetic_data`). -/

structure MRow where
  product_name : String
  quantity : ℤ
  revenue : ℚ
  forecast : Option Forecast
deriving DecidableEq, Repr

/-- The mock execution result. -/

structure MExecResult where
  data : List MRow
  forecast_applied : Bool
  row_count : ℕ
deriving DecidableEq, Repr

/-- A `data_summary` dictionary (each synthesis branch fills a different
key set, so every key is optional). -/

structure DataSummary where
  total_rows : Option ℕ
  forecast_applied : Option Bool
  total_units : Option ℤ
  total_revenue : Option ℤ
deriving DecidableEq, Repr

/-- An Insights object. -/

structure Insights where
  summary : String
  key_findings : List String
  recommendations : List String
  data_summary : Option DataSummary
deriving DecidableEq, Repr

/-- Pipeline response metadata. -/

structure PMeta where
  shop_domain : String
  data_points : ℕ
  forecast_applied : Bool
  mock_mode : Bool
deriving DecidableEq, Repr

/-- The pipeline response; the failure stub's empty `intent` dict `{}` is
`none`. -/

structure PipelineResponse where
  status : String
  intent : Option Intent
  query : String
  insights : Insights
  confidence : ℚ
  metadata : Option PMeta
  error : Option String
deriving DecidableEq, Repr

/-- Python `str.lower()` (character-wise lowercasing). -/

def lowerString (s : String) : String := ⟨s.data.map Char.toLower⟩

/-- Python substring test `sub in s`. -/

def strContains (s sub : String) : Bool := decide (sub.toList <:+: s.toList)

/-- Embeds `_mock_intent_classification` (lines 93-131): keyword cascade over the
lowercased question; confidence is always 0.92. -/

def mockIntentClassification (question : String) : Intent :=
  let ql := lowerString question
  let anyWord := fun (ws : List String) => ws.any (fun w => strContains ql w)
  if anyWord ["forecast", "need", "reorder", "next month", "next week"] then
    { domain := "inventory_forecasting", confidence := 23/25,
      time_range := "next_30_days", requires_forecast := true }
  else if anyWord ["stock", "out of stock", "inventory", "available"] then
    { domain := "inventory_status", confidence := 23/25,
      time_range := "last_30_days", requires_forecast := false }
  else if anyWord ["customer", "repeat", "loyal"] then
    { domain := "customer_analysis", confidence := 23/25,
      time_range := "last_30_days", requires_forecast := false }
  else if anyWord ["top", "best", "worst", "rank"] then
    { domain := "product_ranking", confidence := 23/25,
      time_range := "last_30_days", requires_forecast := false }
  else
    { domain := "sales_analysis", confidence := 23/25,
      time_range := "last_30_days", requires_forecast := false }

/-- Embeds `_mock_query_planning` (lines 133-163): static table keyed by the
intent's domain, defaulting to the `sales_analysis` entry. -/

def mockQueryPlanning (intent : Intent) : MPlan :=
  if intent.domain = "inventory_forecasting" then
    { data_sources := ["orders", "products"], primary_metric := "quantity_sold",
      aggregations := ["sum", "average"], filters := [], requires_forecast := true,
      forecast_config := some { method := some "linear_regression",
                                historical_days := some 90, forecast_days := some 30 },
      group_by := [] }
  else if intent.domain = "customer_analysis" then
    { data_sources := ["customers", "orders"], primary_metric := "order_count",
      aggregations := ["count"], filters := [], requires_forecast := false,
      forecast_config := none, group_by := [] }
  else
    { data_sources := ["orders"], primary_metric := "quantity_sold",
      aggregations := ["sum", "count"], filters := [], requires_forecast := false,
      forecast_config := none, group_by := [] }

/-- Embeds `_mock_shopifyql_generation` (lines 165-176). -/

def mockShopifyQLGeneration (intent : Intent) (_plan : MPlan) : String :=
  if intent.domain = "inventory_forecasting" then
    "FROM orders SHOW product_name, SUM(quantity) AS total_quantity GROUP BY product_name WHERE created_at >= \x272024-10-01\x27"
  else if intent.domain = "product_ranking" then
    "FROM orders SHOW product_name, SUM(quantity) AS total_quantity GROUP BY product_name ORDER BY total_quantity DESC LIMIT 5"
  else if intent.domain = "customer_analysis" then
    "FROM customers SHOW email, COUNT(order_id) AS order_count GROUP BY email HAVING order_count > 1"
  else
    "FROM orders SHOW product_name, SUM(quantity) AS total_quantity GROUP BY product_name"

/-- The fixed product table of `_generate_synthetic_data`
(name, base_quantity, velocity). -/

def mockProducts : List (String × ℤ × ℚ) :=
  [("Blue T-Shirt", 680, 83/10), ("Red Hoodie", 420, 26/5),
   ("Black Jeans", 350, 121/10), ("White Sneakers", 290, 49/5),
   ("Green Cap", 180, 7/2)]

/-- Embeds `_generate_synthetic_data` of the mock orchestrator (lines 178-220).
`gens i = (r1, r2, u)` supplies the two `random.randint(-50, 50)` draws and
the `random.uniform(20, 80)` draw for product `i`.  When the plan requires
a forecast every row gets a forecast object with
`forecast_quantity = int(velocity * forecast_days)`,
`safety_stock = int(forecast_quantity * 0.2)` and constant confidence 0.88;
`settings.SAFETY_STOCK_MULTIPLIER` is not consulted. -/

def mockGenerateSyntheticData (gens : ℕ → ℤ × ℤ × ℚ) (plan : MPlan) : MExecResult :=
  let data := (mockProducts.enum).map (fun p =>
    let i := p.1
    let name := p.2.1
    let base := p.2.2.1
    let vel := p.2.2.2
    let r1 := (gens i).1
    let r2 := (gens i).2.1
    let u := (gens i).2.2
    let forecast :=
      if plan.requires_forecast then
        let fd := (plan.forecast_config.getD {}).forecast_days.getD 30
        let fq := pyTrunc (vel * fd)
        let ss := pyTrunc ((fq : ℚ) * (1/5))
        some { daily_velocity := vel, forecast_quantity := (fq : ℚ),
               safety_stock := (ss : ℚ), total_needed := ((fq + ss : ℤ) : ℚ),
               forecast_days := fd, confidence := 22/25 }
      else none
    { product_name := name, quantity := base + r1,
      revenue := ((base + r2 : ℤ) : ℚ) * u, forecast := forecast })
  { data := data, forecast_applied := plan.requires_forecast, row_count := data.length }

/-- Embeds `_mock_insight_synthesis` (lines 222-299).  Number formatting: Python's
`f"{int(x)}"` is embedded as `toString` of the truncated integer; the
thousands separator of `f"{int(p['revenue']):,}"` in the ranking branch is
not reproduced (no claim concerns the text). -/

def mockInsightSynthesis (_question : String) (intent : Intent) (execution : MExecResult) : Insights :=
  match execution.data with
  | [] =>
    { summary := "No data found for this query",
      key_findings := ["No matching data in your store"],
      recommendations := ["Try adjusting your search criteria"],
      data_summary := some { total_rows := some 0, forecast_applied := none,
                             total_units := none, total_revenue := none } }
  | first :: rest =>
    let data := first :: rest
    if intent.domain = "inventory_forecasting" then
      let fGet := fun (sel : Forecast → ℚ) => ((first.forecast.map sel).getD 0)
      { summary := "You\x27ll need approximately " ++ toString (pyTrunc (fGet Forecast.total_needed)) ++
          " units of " ++ first.product_name ++ " next month",
        key_findings :=
          ["You sell about " ++ toString (pyTrunc (fGet Forecast.daily_velocity)) ++ " " ++
             first.product_name ++ "s per day",
           "Based on 90 days of sales history",
           "Projected sales: " ++ toString (pyTrunc (fGet Forecast.forecast_quantity)) ++ " units",
           "Safety stock added: " ++ toString (pyTrunc (fGet Forecast.safety_stock)) ++ " units"],
        recommendations :=
          ["Order " ++ toString (pyTrunc (fGet Forecast.total_needed)) ++ " units to cover next month",
           "Monitor sales velocity weekly to adjust forecasts"],
        data_summary := some { total_rows := some data.length, forecast_applied := some true,
                               total_units := none, total_revenue := none } }
    else if intent.domain = "product_ranking" then
      let totalQuantity := (data.map (fun p => p.quantity)).sum
      { summary := "Your top 5 products sold " ++ toString totalQuantity ++ " units last week",
        key_findings := ((data.take 5).enum).map (fun p =>
          toString (p.1 + 1) ++ ". " ++ p.2.product_name ++ " - " ++ toString p.2.quantity ++
            " units ($" ++ toString (pyTrunc p.2.revenue) ++ " revenue)"),
        recommendations :=
          [first.product_name ++ " is your best seller - ensure adequate stock",
           "Focus marketing efforts on top 3 products",
           "Consider promotions for " ++ ((data.getLast?).getD first).product_name ++ " to boost sales"],
        data_summary := some { total_rows := some data.length, forecast_applied := none,
                               total_units := some totalQuantity,
                               total_revenue := some (pyTrunc (data.map (fun p => p.revenue)).sum) } }
    else
      let totalQuantity := (data.map (fun p => p.quantity)).sum
      { summary := "Found " ++ toString data.length ++ " products with " ++ toString totalQuantity ++
          " total units sold",
        key_findings := (data.take 3).map (fun p =>
          p.product_name ++ ": " ++ toString p.quantity ++ " units sold"),
        recommendations :=
          ["Review top performers for restocking priorities", "Consider bundling popular items"],
        data_summary := some { total_rows := some data.length, forecast_applied := none,
                               total_units := some totalQuantity, total_revenue := none } }

/-- The failure stub of `process_query`'s `except` branch (lines 78-91):
note it has no `data_summary` key. -/

def pipelineFailedResponse (e : String) : PipelineResponse :=
  { status := "failed", intent := none, query := "",
    insights := { summary := "Failed to process query", key_findings := [],
                  recommendations := [], data_summary := none },
    confidence := 0, metadata := none, error := some e }

/-- The five sequential stage calls inside the `try` of `process_query`
(lines 37-56).  Each stage is passed in as an `Except`-valued function:
the concrete mock stages are total, but any Python call can in principle
raise, and the claims quantify over that possibility. -/

def runStagesMock
    (classifyS : String → Except String Intent)
    (planS : Intent → Except String MPlan)
    (generateS : Intent → MPlan → Except String String)
    (executeS : MPlan → Except String MExecResult)
    (synthesizeS : String → Intent → MExecResult → Except String Insights)
    (question : String) :
    Except String (Intent × MPlan × String × MExecResult × Insights) := do
  let intent ← classifyS question
  let plan ← planS intent
  let query ← generateS intent plan
  let execution ← executeS plan
  let insights ← synthesizeS question intent execution
  pure (intent, plan, query, execution, insights)

/-- Embeds `AgentOrchestrator.process_query` (lines 25-91): run the five stages,
set `confidence = 0.85`, build the completed response; any exception is
caught at the top and becomes the `status="failed"` stub. -/

def processQueryMock
    (classifyS : String → Except String Intent)
    (planS : Intent → Except String MPlan)
    (generateS : Intent → MPlan → Except String String)
    (executeS : MPlan → Except String MExecResult)
    (synthesizeS : String → Intent → MExecResult → Except String Insights)
    (question shopDomain _accessToken : String) (_context : Option String) :
    PipelineResponse :=
  match runStagesMock classifyS planS generateS executeS synthesizeS question with
  | .ok (intent, _plan, query, execution, insights) =>
    { status := "completed", intent := some intent, query := query, insights := insights,
      confidence := 17/20,
      metadata := some { shop_domain := shopDomain, data_points := execution.data.length,
                         forecast_applied := execution.forecast_applied, mock_mode := true },
      error := none }
  | .error e => pipelineFailedResponse e

/-- The mock orchestrator with its actual five stages. -/

def mockProcessQuery (gens : ℕ → ℤ × ℤ × ℚ)
    (question shopDomain accessToken : String) (context : Option String) : PipelineResponse :=
  processQueryMock
    (fun q => .ok (mockIntentClassification q))
    (fun i => .ok (mockQueryPlanning i))
    (fun i p => .ok (mockShopifyQLGeneration i p))
    (fun p => .ok (mockGenerateSyntheticData gens p))
    (fun q i e => .ok (mockInsightSynthesis q i e))
    question shopDomain accessToken context

/-- A Python exception at the service boundary: `main.py` distinguishes
`ValueError` (re-raised) from everything else. -/

inductive PyExn where
  | valueError (msg : String)
  | otherExn (msg : String)
deriving DecidableEq, Repr

/-- The failure response built by the endpoint's generic handler
(`main.py` lines 267-279); its stub carries `"data_summary": {}`. -/

def endpointFailedResponse (e : String) : PipelineResponse :=
  { status := "failed", intent := none, query := "",
    insights := { summary := "Failed to process query", key_findings := [],
                  recommendations := [],
                  data_summary := some { total_rows := none, forecast_applied := none,
                                         total_units := none, total_revenue := none } },
    confidence := 0, metadata := none, error := some e }

/-- The `try`/`except` structure of the `/api/v1/query` handler
(`main.py` lines 228-279): return the orchestrator's result; re-raise a
`ValueError`; convert any other exception to the failure response. -/

def endpointProcessQuery (orchestratorCall : Except PyExn PipelineResponse) :
    Except PyExn PipelineResponse :=
  match orchestratorCall with
  | .ok r => .ok r
  | .error (.valueError m) => .error (.valueError m)
  | .error (.otherExn m) => .ok (endpointFailedResponse m)

/-!
## The LLM-backed Intent Classifier (`agent/intent_classifier.py`)

`classify` calls the completion service and parses its text with
`_parse_response`.  The service call and the JSON decoding are external;
their joint outcome is embedded as `ClassifierInput`:
`serviceError` (the `anthropic` call raised), `decodeError`
(`json.loads` raised `JSONDecodeError`, handled inside `_parse_response`),
or `parsed j` (a JSON object, with every field the parser reads optional).
A JSON `confidence` that is not a number makes Python's
`max(0.0, min(1.0, confidence))` raise `TypeError`, which escapes
`_parse_response` and is caught by `classify`'s outer handler.
-/

/-- A JSON value found under `"confidence"`. -/

inductive JConf where
  | num (q : ℚ)
  | nonNumeric
deriving DecidableEq, Repr

/-- The fields `_parse_response` reads from the decoded JSON object. -/

structure JIntent where
  domain : Option String
  confidence : Option JConf
  time_range : Option String
  requires_forecast : Option Bool
deriving DecidableEq, Repr

/-- Joint outcome of the completion call and JSON decoding. -/

inductive ClassifierInput where
  | serviceError (msg : String)
  | decodeError
  | parsed (j : JIntent)
deriving DecidableEq, Repr

/-- Embeds `IntentClassifier.INTENT_DOMAINS`. -/

def INTENT_DOMAINS : List String :=
  ["inventory_forecasting", "inventory_status", "sales_analysis",
   "customer_analysis", "product_ranking"]

/-- The classifier's safe default intent (used on service failure and on
unparsable JSON alike). -/

def defaultIntent : Intent :=
  { domain := "sales_analysis", confidence := 3/10,
    time_range := "last_30_days", requires_forecast := false }

/-- The validation part of `_parse_response` (lines 134-153): coerce an
unrecognized domain to `"sales_analysis"`, clamp the confidence
(default 0.5) into [0,1] — raising `TypeError` on a non-numeric value —
and fill the remaining defaults. -/

def parseIntentResponse (j : JIntent) : Except String Intent :=
  let domain :=
    match j.domain with
    | some d => if d ∈ INTENT_DOMAINS then d else "sales_analysis"
    | none => "sales_analysis"
  match j.confidence.getD (.num (1/2)) with
  | .num c =>
    .ok { domain := domain, confidence := max 0 (min 1 c),
          time_range := j.time_range.getD "last_30_days",
          requires_forecast := j.requires_forecast.getD false }
  | .nonNumeric => .error "TypeError: not supported between instances"

/-- Embeds `IntentClassifier.classify` (lines 39-84): a decode error is turned
into the safe default inside `_parse_response`; any other exception
(service error, `TypeError` from validation) is caught by the outer
handler, which returns the same default. -/

def classifierClassify (input : ClassifierInput) : Intent :=
  match input with
  | .serviceError _ => defaultIntent
  | .decodeError => defaultIntent
  | .parsed j =>
    match parseIntentResponse j with
    | .ok i => i
    | .error _ => defaultIntent

/-!
## The LLM-backed Query Planner (`agent/query_planner.py`)

`plan` calls the completion service and parses with `_parse_response`;
a JSON decode error is handled inside the parser (safe default plan).
If the service call itself raises, the `except` handler runs
`return self._get_default_plan(intent)` — but `_get_default_plan` is
defined at module level (column 0, line 155), not as a method of
`QueryPlanner`, so the attribute lookup raises `AttributeError`, which
propagates out of `plan`.
-/

/-- The fields the planner's parser reads from the decoded JSON plan. -/

structure JPlan where
  data_sources : Option (List String)
  primary_metric : Option String
  aggregations : Option (List String)
  filters : Option (List (String × String))
  requires_forecast : Option Bool
  forecast_config : Option FConfig
  group_by : Option (List String)
deriving DecidableEq, Repr

/-- Joint outcome of the planner's completion call and JSON decoding. -/

inductive PlannerInput where
  | serviceError (msg : String)
  | decodeError
  | parsed (p : JPlan)
deriving DecidableEq, Repr

/-- The `setdefault` part of the planner's `_parse_response`
(lines 119-138), including synthesizing the default `forecast_config`
when `requires_forecast` is set without one. -/

def parsePlanResponse (p : JPlan) : MPlan :=
  let requiresForecast := p.requires_forecast.getD false
  { data_sources := p.data_sources.getD ["orders"],
    primary_metric := p.primary_metric.getD "quantity_sold",
    aggregations := p.aggregations.getD ["sum"],
    filters := p.filters.getD [],
    requires_forecast := requiresForecast,
    forecast_config :=
      if requiresForecast ∧ p.forecast_config = none then
        some { method := some "linear_regression",
               historical_days := some 90, forecast_days := some 30 }
      else p.forecast_config,
    group_by := p.group_by.getD [] }

/-- The safe default plan returned on a JSON decode error
(lines 146-153). -/

def plannerSafeDefault : MPlan :=
  { data_sources := ["orders"], primary_metric := "quantity_sold",
    aggregations := ["sum"], filters := [("date_range", "last_30_days")],
    requires_forecast := false, forecast_config := none, group_by := [] }

/-- The module-level `_get_default_plan(self, intent)` function
(lines 155-191): the per-domain static default Plan table.  It is real
code in `query_planner.py`, but it is *not* a method of `QueryPlanner`. -/

def getDefaultPlan (intent : Intent) : MPlan :=
  if intent.domain = "inventory_forecasting" then
    { data_sources := ["orders", "products"], primary_metric := "quantity_sold",
      aggregations := ["sum", "daily_average"],
      filters := [("date_range", "last_90_days")], requires_forecast := true,
      forecast_config := some { method := some "linear_regression",
                                historical_days := some 90, forecast_days := some 30 },
      group_by := ["product_name"] }
  else if intent.domain = "customer_analysis" then
    { data_sources := ["customers", "orders"], primary_metric := "order_count",
      aggregations := ["count", "sum"],
      filters := [("date_range", "last_90_days")], requires_forecast := false,
      forecast_config := none, group_by := ["customer_email"] }
  else
    { data_sources := ["orders"], primary_metric := "quantity_sold",
      aggregations := ["sum", "count"],
      filters := [("date_range", "last_30_days")], requires_forecast := false,
      forecast_config := none, group_by := ["product_name"] }

/-- Embeds `QueryPlanner.plan` (lines 30-72).  On a successful service call the
parsed (or decode-error default) plan is returned; when the service call
raises, the handler's `self._get_default_plan(intent)` raises
`AttributeError` — `QueryPlanner`'s attributes are `client`, `model`,
`plan`, `_build_prompt` and `_parse_response` only — so `plan` fails. -/

def plannerPlan (input : PlannerInput) (_intent : Intent) : Except String MPlan :=
  match input with
  | .parsed p => .ok (parsePlanResponse p)
  | .decodeError => .ok plannerSafeDefault
  | .serviceError _ =>
    .error "AttributeError: QueryPlanner object has no attribute _get_default_plan"

/-- Constant stage functions used to witness C1 (one healthy set, one with
a raising synthesis stage). -/

def c1ClassifyOk : String → Except String Intent := fun _ => .ok defaultIntent

def c1PlanOk : Intent → Except String MPlan := fun _ => .ok plannerSafeDefault

def c1GenerateOk : Intent → MPlan → Except String String := fun _ _ => .ok "FROM orders SHOW total_sales"

def c1ExecuteOk : MPlan → Except String MExecResult := fun _ => .ok { data := [], forecast_applied := false, row_count := 0 }

def c1SynthesizeOk : String → Intent → MExecResult → Except String Insights :=
  fun _ _ _ => .ok { summary := "ok", key_findings := [], recommendations := [], data_summary := none }

def c1SynthesizeRaise : String → Intent → MExecResult → Except String Insights :=
  fun _ _ _ => .error "boom"

/-- Fixed randomness used for the C4 counterexample run. -/

def c4gens : ℕ → ℤ × ℤ × ℚ := fun _ => (0, 0, 20)

/-- The C4 counterexample run: a completed pipeline run of the wired
orchestrator. -/

def c4run : PipelineResponse :=
  mockProcessQuery c4gens "How many Blue T-Shirts will I need next month?"
    "demo.myshopify.com" "token" none

/-- An inventory-forecasting intent, for the C3 evaluation. -/

def c3intent : Intent :=
  { domain := "inventory_forecasting", confidence := 1,
    time_range := "next_30_days", requires_forecast := true }

/-- The default forecast configuration of the planner's table. -/

def defaultFConfig : FConfig :=
  { method := some "linear_regression", historical_days := some 90, forecast_days := some 30 }

/-- The forecast object the mock generator attaches for a product of
daily velocity `vel` under horizon `fd`, per the source (lines 199-212):
`forecast_quantity = int(velocity · fd)`,
`safety_stock = int(forecast_quantity · 0.2)`,
`total_needed` their sum, constant confidence 0.88. -/

def mockRowForecast (vel : ℚ) (fd : ℕ) : Forecast :=
  let fq := pyTrunc (vel * fd)
  let ss := pyTrunc ((fq : ℚ) * (1/5))
  { daily_velocity := vel, forecast_quantity := (fq : ℚ), safety_stock := (ss : ℚ),
    total_needed := ((fq + ss : ℤ) : ℚ), forecast_days := fd, confidence := 22/25 }

/-- A concrete plan requiring a forecast, for the C10 witness. -/

def c10plan : MPlan :=
  { data_sources := ["orders", "products"], primary_metric := "quantity_sold",
    aggregations := ["sum", "average"], filters := [], requires_forecast := true,
    forecast_config := some { method := some "linear_regression",
                              historical_days := some 90, forecast_days := some 30 },
    group_by := [] }

/-- Data for the C8 witness: one row of a product with a forecast entry,
one row of a product without. -/

def c8forecast : Forecast :=
  { daily_velocity := 1, forecast_quantity := 30, safety_stock := 6,
    total_needed := 36, forecast_days := 30, confidence := 1/2 }

def c8rowA : XRow :=
  { product_name := some "Blue T-Shirt", quantity := some 4, forecast := none,
    extra := [("date", "2024-10-01")] }

def c8rowB : XRow :=
  { product_name := some "Green Cap", quantity := some 2, forecast := none,
    extra := [] }

def c8res : ApplyResult :=
  { forecasts := [("Blue T-Shirt", c8forecast)], method := "linear_regression" }

def c5row (q : ℚ) : XRow :=
  { product_name := some "A", quantity := some q, forecast := none, extra := [] }

def c5data : List XRow :=
  [c5row 1, c5row 2, c5row 1, c5row 2, c5row 1, c5row 1, c5row 2]

def cfg30 : FConfig :=
  { method := some "linear_regression", historical_days := some 90, forecast_days := some 30 }

def c5f : Forecast :=
  { daily_velocity := 7/5, forecast_quantity := 63, safety_stock := 13,
    total_needed := 75, forecast_days := 30, confidence := 0 }

def c2row (q : ℚ) : XRow :=
  { product_name := some "A", quantity := some q, forecast := none, extra := [] }

def c2data : List XRow :=
  [c2row 0, c2row 1, c2row 2, c2row 3, c2row 4, c2row 5, c2row 6]

def c2f : Forecast :=
  { daily_velocity := 3, forecast_quantity := 645, safety_stock := 129,
    total_needed := 774, forecast_days := 30, confidence := 0 }

def countProduct (data : List XRow) (p : String) : ℕ :=
  (data.filter (fun r => r.product_name == some p)).length

def c6rowB : XRow :=
  { product_name := some "B", quantity := some 5, forecast := none, extra := [] }

def c6data : List XRow := c5data ++ [c6rowB]

def plan6 : ExecPlan := { requires_forecast := true, forecast_config := some cfg30 }

/-!
## Helper lemmas and claim theorems
-/

/-!
## Claims
-/

/-- C1: for every question, shop domain, access token and optional context,
the orchestrator's `process_query` returns a response and never raises
(it is a total function into `PipelineResponse`): if all five stages
complete it returns `status="completed"`; if any stage raises, the
exception is caught once at the top and converted to the fixed failure
stub (`status="failed"`, empty intent, empty query, the
"Failed to process query" insights stub, confidence 0, the error text);
and the surrounding `processQuery` endpoint, receiving the orchestrator's
(always returned) response, likewise never throws to the caller. -/

theorem c1_pipeline_failure_boundary
    (classifyS : String → Except String Intent)
    (planS : Intent → Except String MPlan)
    (generateS : Intent → MPlan → Except String String)
    (executeS : MPlan → Except String MExecResult)
    (synthesizeS : String → Intent → MExecResult → Except String Insights)
    (question shopDomain accessToken : String) (context : Option String) :
    (∀ v, runStagesMock classifyS planS generateS executeS synthesizeS question = .ok v →
      (processQueryMock classifyS planS generateS executeS synthesizeS
          question shopDomain accessToken context).status = "completed") ∧
    (∀ er, runStagesMock classifyS planS generateS executeS synthesizeS question = .error er →
      processQueryMock classifyS planS generateS executeS synthesizeS
          question shopDomain accessToken context =
        { status := "failed", intent := none, query := "",
          insights := { summary := "Failed to process query", key_findings := [],
                        recommendations := [], data_summary := none },
          confidence := 0, metadata := none, error := some er }) ∧
    ((processQueryMock classifyS planS generateS executeS synthesizeS
        question shopDomain accessToken context).status = "completed" ∨
      (processQueryMock classifyS planS generateS executeS synthesizeS
        question shopDomain accessToken context).status = "failed") ∧
    endpointProcessQuery (.ok (processQueryMock classifyS planS generateS executeS synthesizeS
        question shopDomain accessToken context)) =
      .ok (processQueryMock classifyS planS generateS executeS synthesizeS
        question shopDomain accessToken context) := by
  refine ⟨?_, ?_, ?_, rfl⟩
  · intro v hv
    simp [processQueryMock, hv]
  · intro er her
    simp [processQueryMock, her, pipelineFailedResponse]
  · cases h : runStagesMock classifyS planS generateS executeS synthesizeS question with
    | ok v => left; simp [processQueryMock, h]
    | error er => right; simp [processQueryMock, h, pipelineFailedResponse]

theorem c1_pipeline_failure_boundary_witness :
    (processQueryMock c1ClassifyOk c1PlanOk c1GenerateOk c1ExecuteOk c1SynthesizeOk
        "q" "shop" "tok" none).status = "completed" ∧
    (processQueryMock c1ClassifyOk c1PlanOk c1GenerateOk c1ExecuteOk c1SynthesizeRaise
        "q" "shop" "tok" none).error = some "boom" := by
  constructor
  · exact (c1_pipeline_failure_boundary c1ClassifyOk c1PlanOk c1GenerateOk c1ExecuteOk
      c1SynthesizeOk "q" "shop" "tok" none).1
      (defaultIntent, plannerSafeDefault, "FROM orders SHOW total_sales",
        { data := [], forecast_applied := false, row_count := 0 },
        { summary := "ok", key_findings := [], recommendations := [], data_summary := none }) rfl
  · have h := (c1_pipeline_failure_boundary c1ClassifyOk c1PlanOk c1GenerateOk c1ExecuteOk
      c1SynthesizeRaise "q" "shop" "tok" none).2.1 "boom" rfl
    rw [h]

/-- C4 (amended): for every completed run of the orchestrator variant that
is wired to the endpoint, the overall confidence is the constant 0.85 —
it is not the weighted combination of the Intent confidence and a data
factor.  (Every run of the mock orchestrator completes, since its stages
are total.) -/

theorem c4_overall_confidence_constant (gens : ℕ → ℤ × ℤ × ℚ)
    (question shopDomain accessToken : String) (context : Option String) :
    (mockProcessQuery gens question shopDomain accessToken context).status = "completed" ∧
    (mockProcessQuery gens question shopDomain accessToken context).confidence = 17/20 :=
  ⟨rfl, rfl⟩

/-- C4 (counterexample): a completed run whose Intent confidence is 0.92
and whose execution data is non-empty (5 rows), yet whose overall
confidence is 0.85, not the claimed
`0.6 × 0.92 + 0.4 × 1.0 = 0.952` (nor any clamp of it). -/

theorem c4_overall_confidence_counterexample :
    c4run.status = "completed" ∧
    c4run.intent.map Intent.confidence = some (23/25) ∧
    c4run.metadata.map PMeta.data_points = some 5 ∧
    c4run.confidence = 17/20 ∧
    (17/20 : ℚ) ≠ (3/5) * (23/25) + (2/5) * 1 := by
  refine ⟨rfl, rfl, rfl, rfl, by norm_num⟩

/-- C9: every Intent produced by classification — whether the completion
response parses, carries an unrecognized domain, is unparsable, carries a
non-numeric confidence, or the service errors — has a domain in the closed
five-element set and a confidence in [0,1]; the mock classifier likewise. -/

theorem c9_intent_domain_closed :
    (∀ input : ClassifierInput,
      (classifierClassify input).domain ∈ INTENT_DOMAINS ∧
      0 ≤ (classifierClassify input).confidence ∧
      (classifierClassify input).confidence ≤ 1) ∧
    (∀ question : String,
      (mockIntentClassification question).domain ∈ INTENT_DOMAINS ∧
      0 ≤ (mockIntentClassification question).confidence ∧
      (mockIntentClassification question).confidence ≤ 1) := by
  constructor
  · intro input
    cases input with
    | serviceError m =>
      exact ⟨by show defaultIntent.domain ∈ INTENT_DOMAINS; decide,
        by norm_num [classifierClassify, defaultIntent]⟩
    | decodeError => exact ⟨by decide, by norm_num [classifierClassify, defaultIntent]⟩
    | parsed j =>
      simp only [classifierClassify, parseIntentResponse]
      cases hc : j.confidence.getD (.num (1/2)) with
      | num c =>
        simp only [hc]
        refine ⟨?_, le_max_left 0 _, max_le (by norm_num) (min_le_left 1 c)⟩
        cases hd : j.domain with
        | none => decide
        | some d =>
          by_cases hmem : d ∈ INTENT_DOMAINS
          · simp only [if_pos hmem]; exact hmem
          · simp [hmem]; decide
      | nonNumeric =>
        simp only [hc]
        exact ⟨by decide, by norm_num [defaultIntent]⟩
  · intro question
    dsimp only [mockIntentClassification]
    split_ifs <;> exact ⟨by decide, by norm_num, by norm_num⟩

/-- C3 (code evaluation at the failing input): when the completion-service
call raises, `plan`'s fallback path itself raises `AttributeError`
(because `_get_default_plan` is a module-level function, not a method of
`QueryPlanner`), so `plan` fails instead of returning the per-domain
default.  The (unreachable from `plan`) module-level default table does
carry, for `inventory_forecasting`, `requires_forecast=true` and a
forecast_config with `historical_days=90`, `forecast_days=30`,
`method="linear_regression"`. -/

theorem c3_planner_fallback_raises :
    plannerPlan (.serviceError "anthropic.APIConnectionError: Connection error.") defaultIntent =
      .error "AttributeError: QueryPlanner object has no attribute _get_default_plan" ∧
    (getDefaultPlan c3intent).requires_forecast = true ∧
    (getDefaultPlan c3intent).forecast_config = some defaultFConfig :=
  ⟨rfl, rfl, rfl⟩

/-- C10: in the orchestrator variant wired to the endpoint, whenever the
plan requires a forecast, every one of the five synthetic rows carries a
forecast object with constant confidence 0.88,
`forecast_quantity = int(hard-coded velocity × forecast_days)` and
`safety_stock = int(forecast_quantity × 0.2)` — for every randomness
source `gens` (so independent of the historical rows) and with the factor
0.2 fixed in the code (the generator never reads
`settings.SAFETY_STOCK_MULTIPLIER`, and the Forecast Engine's regression
is never invoked: `orchestrator.py` does not import `QueryExecutor`). -/

theorem c10_mock_forecast_constants (gens : ℕ → ℤ × ℤ × ℚ) (plan : MPlan)
    (h : plan.requires_forecast = true) :
    (mockGenerateSyntheticData gens plan).data.map (fun r => r.forecast) =
      [some (mockRowForecast (83/10) ((plan.forecast_config.getD {}).forecast_days.getD 30)),
       some (mockRowForecast (26/5) ((plan.forecast_config.getD {}).forecast_days.getD 30)),
       some (mockRowForecast (121/10) ((plan.forecast_config.getD {}).forecast_days.getD 30)),
       some (mockRowForecast (49/5) ((plan.forecast_config.getD {}).forecast_days.getD 30)),
       some (mockRowForecast (7/2) ((plan.forecast_config.getD {}).forecast_days.getD 30))] ∧
    (mockGenerateSyntheticData gens plan).forecast_applied = true := by
  constructor
  · simp [mockGenerateSyntheticData, mockProducts, List.enum, h, mockRowForecast]
  · simp [mockGenerateSyntheticData, h]

theorem c10_mock_forecast_constants_witness :
    (mockGenerateSyntheticData c4gens c10plan).data.map (fun r => r.forecast) =
      [some (mockRowForecast (83/10) 30), some (mockRowForecast (26/5) 30),
       some (mockRowForecast (121/10) 30), some (mockRowForecast (49/5) 30),
       some (mockRowForecast (7/2) 30)] := by
  have h := (c10_mock_forecast_constants c4gens c10plan rfl).1
  simpa [c10plan] using h

/-- The per-row behavior of the merge: a row is updated (only in its
`forecast` field) exactly when its own `product_name` hits the
forecasts dict. -/

theorem mergeRow_char (fx : List (String × Forecast)) (r : XRow) :
    mergeRow fx r =
      match r.product_name.bind (fun p => alookup p fx) with
      | some f => { r with forecast := some f }
      | none => r := by
  cases hp : r.product_name with
  | none => simp [mergeRow, hp]
  | some p =>
    cases hl : alookup p fx with
    | none => simp [mergeRow, hp, hl]
    | some f => simp [mergeRow, hp, hl]

/-- C8: merging forecasts into execution data is a pure annotation: row
count and order are preserved (position `i` of the output comes from
position `i` of the input), every pre-existing field other than
`forecast` keeps its value, a row whose product has no forecast entry is
returned completely unchanged, and a row whose product has one gains
exactly that forecast object. -/

theorem c8_merge_preserves_rows (data : List XRow) (res : ApplyResult) :
    (mergeForecastWithData data res).length = data.length ∧
    (∀ i : ℕ,
      (data[i]? = none → (mergeForecastWithData data res)[i]? = none) ∧
      (∀ r, data[i]? = some r →
        ∃ r', (mergeForecastWithData data res)[i]? = some r' ∧
          r'.product_name = r.product_name ∧
          r'.quantity = r.quantity ∧
          r'.extra = r.extra ∧
          (r.product_name.bind (fun p => alookup p res.forecasts) = none → r' = r) ∧
          (∀ f, r.product_name.bind (fun p => alookup p res.forecasts) = some f →
            r' = { r with forecast := some f }))) := by
  refine ⟨by simp [mergeForecastWithData], fun i => ⟨fun h => ?_, fun r h => ?_⟩⟩
  · simp [mergeForecastWithData, List.getElem?_map, h]
  · refine ⟨mergeRow res.forecasts r, by simp [mergeForecastWithData, List.getElem?_map, h], ?_⟩
    rw [mergeRow_char]
    cases hb : r.product_name.bind (fun p => alookup p res.forecasts) with
    | none => simp
    | some f => simp

theorem c8_merge_preserves_rows_witness :
    (mergeForecastWithData [c8rowA, c8rowB] c8res)[0]? =
      some { c8rowA with forecast := some c8forecast } ∧
    (mergeForecastWithData [c8rowA, c8rowB] c8res)[1]? = some c8rowB := by
  constructor
  · obtain ⟨r', hr', -, -, -, -, hsome⟩ :=
      ((c8_merge_preserves_rows [c8rowA, c8rowB] c8res).2 0).2 c8rowA rfl
    rw [hr', hsome c8forecast rfl]
  · obtain ⟨r', hr', -, -, -, hnone, -⟩ :=
      ((c8_merge_preserves_rows [c8rowA, c8rowB] c8res).2 1).2 c8rowB rfl
    rw [hr', hnone rfl]

/-- Sum of a function mapped over `List.range` as a `Finset.range` sum. -/

theorem listSum_map_range (f : ℕ → ℚ) (n : ℕ) :
    ((List.range n).map f).sum = ∑ i in Finset.range n, f i := by
  induction n with
  | zero => simp
  | succ k ih =>
    rw [List.range_succ, List.map_append, List.sum_append, Finset.sum_range_succ, ih]
    simp

/-- A list's sum as a `Finset.range` sum of its entries. -/

theorem listSum_eq_sum_getD (ys : List ℚ) :
    ys.sum = ∑ i in Finset.range ys.length, ys.getD i 0 := by
  induction ys with
  | nil => simp
  | cons y t ih =>
    rw [List.sum_cons, List.length_cons, Finset.sum_range_succ', ih]
    simp [add_comm]

/-- Auxiliary: summing `g` over the zip of a reindexed `List.range` with
`ys`, as a `Finset.range` sum. -/

theorem listSum_zip_range_aux (g : ℚ → ℚ → ℚ) :
    ∀ (ys : List ℚ) (σ : ℕ → ℕ),
      ((((List.range ys.length).map (fun i : ℕ => ((σ i : ℕ) : ℚ))).zip ys).map
          (fun p => g p.1 p.2)).sum
        = ∑ i in Finset.range ys.length, g ((σ i : ℕ) : ℚ) (ys.getD i 0)
  | [], _ => by simp
  | y :: t, σ => by
    have ih := listSum_zip_range_aux g t (fun i => σ (i + 1))
    have hc : ((fun i : ℕ => ((σ i : ℕ) : ℚ)) ∘ Nat.succ) =
        (fun i : ℕ => ((σ (i + 1) : ℕ) : ℚ)) := rfl
    rw [List.length_cons, List.range_succ_eq_map, List.map_cons, List.map_map,
      List.zip_cons_cons, List.map_cons, List.sum_cons, hc, ih, Finset.sum_range_succ']
    simp only [List.getD_cons_zero, List.getD_cons_succ]
    exact add_comm _ _

/-- Summing `g` over the zip of the time index with `ys`. -/

theorem listSum_zip_index (g : ℚ → ℚ → ℚ) (ys : List ℚ) :
    (((indexList ys.length).zip ys).map (fun p => g p.1 p.2)).sum
      = ∑ i in Finset.range ys.length, g (i : ℚ) (ys.getD i 0) := by
  have h := listSum_zip_range_aux g ys id
  simpa [indexList, id] using h

/-- C7: the Forecast Engine's per-group fit is exactly ordinary least
squares of quantity against the zero-based time index —
`slope = Σ((x−x̄)(y−ȳ)) / Σ((x−x̄)²)` with slope 0 when the denominator is
zero, `intercept = ȳ − slope·x̄` — and the projected future values are
`slope·t + intercept` for the `forecast_days` indices
`t = n, …, n + forecast_days − 1` after the observed window, each clamped
to be non-negative. -/

theorem c7_regression_is_ols (ys : List ℚ) :
    calcLinReg (indexList ys.length) ys = (specSlope ys, specIntercept ys) ∧
    (∀ slope intercept : ℚ, ∀ n fd : ℕ,
      codePredictions slope intercept n fd =
        (List.range fd).map (fun i : ℕ => max 0 (slope * ((n : ℚ) + (i : ℚ)) + intercept))) := by
  constructor
  · have hlen : (indexList ys.length).length = ys.length := by
      rw [indexList, List.length_map, List.length_range]
    have hxsum : (indexList ys.length).sum = ∑ i in Finset.range ys.length, (i : ℚ) := by
      rw [indexList]; exact listSum_map_range (fun i : ℕ => (i : ℚ)) ys.length
    have hxmean : (indexList ys.length).sum / ((indexList ys.length).length : ℚ) =
        specXMean ys.length := by
      rw [hlen, hxsum, specXMean]
    have hymean : ys.sum / ((indexList ys.length).length : ℚ) = specYMean ys := by
      rw [hlen, listSum_eq_sum_getD, specYMean]
    have hnum : (((indexList ys.length).zip ys).map
        (fun p => (p.1 - specXMean ys.length) * (p.2 - specYMean ys))).sum = specNum ys := by
      rw [listSum_zip_index (fun x y => (x - specXMean ys.length) * (y - specYMean ys)) ys,
        specNum]
    have hden : ((indexList ys.length).map
        (fun x => (x - specXMean ys.length) ^ 2)).sum = specDen ys := by
      rw [indexList, List.map_map]
      have hc : ((fun x : ℚ => (x - specXMean ys.length) ^ 2) ∘ fun i : ℕ => (i : ℚ)) =
          (fun i : ℕ => ((i : ℚ) - specXMean ys.length) ^ 2) := rfl
      rw [hc, listSum_map_range (fun i : ℕ => ((i : ℚ) - specXMean ys.length) ^ 2) ys.length,
        specDen]
    simp only [calcLinReg, hxmean, hymean, hnum, hden]
    by_cases h : specDen ys = 0
    · simp [h, specSlope, specIntercept]
    · simp [h, specSlope, specIntercept]
  · intro slope intercept n fd
    unfold codePredictions
    have hfun : (fun i : ℕ => max (slope * ((n + i : ℕ) : ℚ) + intercept) 0) =
        (fun i : ℕ => max 0 (slope * ((n : ℚ) + (i : ℚ)) + intercept)) := by
      funext i
      rw [max_comm]
      push_cast
      ring_nf
    rw [hfun]

/-- Banker's rounding moves a rational by at most 1/2. -/

theorem pyRoundInt_close (q : ℚ) : |(pyRoundInt q : ℚ) - q| ≤ 1/2 := by
  have hle : (⌊q⌋ : ℚ) ≤ q := Int.floor_le q
  have hlt : q < (⌊q⌋ : ℚ) + 1 := Int.lt_floor_add_one q
  by_cases h1 : q - ⌊q⌋ < 1/2
  · rw [pyRoundInt, if_pos h1, abs_of_nonpos (by linarith)]
    linarith
  · by_cases h2 : q - ⌊q⌋ > 1/2
    · rw [pyRoundInt, if_neg h1, if_pos h2]
      push_cast
      rw [abs_of_nonneg (by linarith)]
      linarith
    · have h3 : q - ⌊q⌋ = 1/2 := le_antisymm (not_lt.mp h2) (not_lt.mp h1)
      rw [pyRoundInt, if_neg h1, if_neg h2]
      by_cases h4 : ⌊q⌋ % 2 = 0
      · rw [if_pos h4, abs_of_nonpos (by linarith)]
        linarith
      · rw [if_neg h4]
        push_cast
        rw [abs_of_nonneg (by linarith)]
        linarith

/-- Rounding the addends separately agrees with rounding the sum to
within 1 (the slack the Forecast Engine's per-field rounding can
introduce). -/

theorem pyRound0_add_close (x y : ℚ) :
    |pyRound0 (x + y) - (pyRound0 x + pyRound0 y)| ≤ 1 := by
  have hx := pyRoundInt_close x
  have hy := pyRoundInt_close y
  have hxy := pyRoundInt_close (x + y)
  rw [abs_le] at hx hy hxy
  have hcast : ((pyRoundInt (x + y) - pyRoundInt x - pyRoundInt y : ℤ) : ℚ) =
      (pyRoundInt (x + y) : ℚ) - (pyRoundInt x : ℚ) - (pyRoundInt y : ℚ) := by
    push_cast
    ring
  have habs : |((pyRoundInt (x + y) - pyRoundInt x - pyRoundInt y : ℤ) : ℚ)| ≤ 3/2 := by
    rw [hcast, abs_le]
    constructor <;> linarith [hx.1, hx.2, hy.1, hy.2, hxy.1, hxy.2]
  have hd2 : |pyRoundInt (x + y) - pyRoundInt x - pyRoundInt y| ≤ 1 := by
    by_contra hcon
    push_neg at hcon
    have h2 : (2 : ℤ) ≤ |pyRoundInt (x + y) - pyRoundInt x - pyRoundInt y| := by omega
    have h2q : (2 : ℚ) ≤ ((|pyRoundInt (x + y) - pyRoundInt x - pyRoundInt y| : ℤ) : ℚ) := by
      exact_mod_cast h2
    rw [Int.cast_abs] at h2q
    linarith [habs]
  have hgoal : pyRound0 (x + y) - (pyRound0 x + pyRound0 y) =
      ((pyRoundInt (x + y) - pyRoundInt x - pyRoundInt y : ℤ) : ℚ) := by
    rw [pyRound0, pyRound0, pyRound0, hcast]
    ring
  rw [hgoal, ← Int.cast_abs]
  exact_mod_cast hd2

/-- Every entry of a successful `forecastGroups` run comes from a
successful, non-skipped `forecastGroup` on one of the groups. -/

theorem forecastGroups_mem (m : ℚ) (cfg : FConfig) :
    ∀ (groups : List (String × List XRow)) (fx : List (String × Forecast)),
      forecastGroups m cfg groups = .ok fx → ∀ k f, (k, f) ∈ fx →
        ∃ rows, (k, rows) ∈ groups ∧ forecastGroup m cfg rows = .ok (some f)
  | [], fx, h, k, f, hf => by
    rw [forecastGroups] at h
    cases h
    simp at hf
  | (k', rows') :: t, fx, h, k, f, hf => by
    rw [forecastGroups] at h
    cases hg : forecastGroup m cfg rows' with
    | error e => rw [hg] at h; cases h
    | ok o =>
      cases o with
      | none =>
        rw [hg] at h
        obtain ⟨rows, hmem, hrows⟩ := forecastGroups_mem m cfg t fx h k f hf
        exact ⟨rows, List.mem_cons_of_mem _ hmem, hrows⟩
      | some f' =>
        rw [hg] at h
        cases ht : forecastGroups m cfg t with
        | error e => rw [ht] at h; cases h
        | ok fx' =>
          rw [ht] at h
          cases h
          rcases List.mem_cons.mp hf with hhead | htail
          · cases hhead
            exact ⟨rows', List.mem_cons_self _ _, hg⟩
          · obtain ⟨rows, hmem, hrows⟩ := forecastGroups_mem m cfg t fx' ht k f htail
            exact ⟨rows, List.mem_cons_of_mem _ hmem, hrows⟩

/-- A successful, non-skipped `forecastGroup` yields the record shape of
the source: each monetary field is the banker's rounding of the
corresponding pre-rounding value, built from one total `T`. -/

theorem forecastGroup_shape (m : ℚ) (cfg : FConfig) (rows : List XRow) (f : Forecast)
    (h : forecastGroup m cfg rows = .ok (some f)) :
    ∃ T : ℚ, f.forecast_quantity = pyRound0 T ∧ f.safety_stock = pyRound0 (T * (m - 1)) ∧
      f.total_needed = pyRound0 (T + T * (m - 1)) := by
  rw [forecastGroup] at h
  by_cases hlen : (rows.map (fun r => r.quantity.getD 0)).length < 7
  · rw [if_pos hlen] at h
    cases h
  · rw [if_neg hlen] at h
    simp only [] at h
    cases hc : calcForecastConfidence (rows.map (fun r => r.quantity.getD 0))
        ((codePredictions
            (calcLinReg (indexList (rows.map (fun r => r.quantity.getD 0)).length)
              (rows.map (fun r => r.quantity.getD 0))).1
            (calcLinReg (indexList (rows.map (fun r => r.quantity.getD 0)).length)
              (rows.map (fun r => r.quantity.getD 0))).2
            (rows.map (fun r => r.quantity.getD 0)).length
            (cfg.forecast_days.getD 30)).take (rows.map (fun r => r.quantity.getD 0)).length) with
    | error e => rw [hc] at h; cases h
    | ok conf =>
      rw [hc] at h
      cases h
      exact ⟨_, rfl, rfl, rfl⟩

/-- C5 (amended): for every forecast object produced by the Forecast
Engine, the three stored fields are the banker's roundings of one
pre-rounding total `T`: `forecast_quantity = round(T)`,
`safety_stock = round(T·(m−1))` and
`total_needed = round(T + T·(m−1))` — so the identity
`total_needed = forecast_quantity + safety_stock` holds exactly *before*
rounding, and the stored fields satisfy it to within 1:
`|total_needed − (forecast_quantity + safety_stock)| ≤ 1`. -/

theorem c5_total_needed_amended (m : ℚ) (data : List XRow) (cfg : FConfig)
    (res : ApplyResult) (h : applyForecasting m data cfg = .ok res)
    (k : String) (f : Forecast) (hf : (k, f) ∈ res.forecasts) :
    (∃ T : ℚ, f.forecast_quantity = pyRound0 T ∧ f.safety_stock = pyRound0 (T * (m - 1)) ∧
      f.total_needed = pyRound0 (T + T * (m - 1))) ∧
    |f.total_needed - (f.forecast_quantity + f.safety_stock)| ≤ 1 := by
  have hshape : ∃ T : ℚ, f.forecast_quantity = pyRound0 T ∧
      f.safety_stock = pyRound0 (T * (m - 1)) ∧
      f.total_needed = pyRound0 (T + T * (m - 1)) := by
    rw [applyForecasting] at h
    by_cases hempty : data.isEmpty
    · rw [if_pos hempty] at h
      cases h
      simp at hf
    · rw [if_neg hempty] at h
      cases hg : forecastGroups m cfg (groupByProduct data) with
      | error e => rw [hg] at h; cases h
      | ok fx =>
        rw [hg] at h
        cases h
        obtain ⟨rows, -, hrows⟩ := forecastGroups_mem m cfg (groupByProduct data) fx hg k f hf
        exact forecastGroup_shape m cfg rows f hrows
  refine ⟨hshape, ?_⟩
  obtain ⟨T, hfq, hss, htn⟩ := hshape
  rw [hfq, hss, htn]
  exact pyRound0_add_close T (T * (m - 1))

theorem c5fg : forecastGroup (6/5) cfg30 c5data = .ok (some c5f) := by
  norm_num [forecastGroup, c5data, c5row, cfg30, indexList, List.range_succ, calcLinReg,
    List.zip, codePredictions, calcForecastConfidence, npSub, listMean, pyRound1, pyRound0,
    pyRoundInt, c5f]

theorem c5eval : applyForecasting (6/5) c5data cfg30 =
    .ok { forecasts := [("A", c5f)], method := "linear_regression" } := by
  have hgroup : groupByProduct c5data = [("A", c5data)] := rfl
  have hne : ¬ (c5data.isEmpty = true) := by simp [c5data]
  rw [applyForecasting, if_neg hne, hgroup, forecastGroups, c5fg]
  rfl

/-- C5 (counterexample): on a seven-observation history `[1,2,1,2,1,1,2]`
with the default multiplier 1.2 and a 30-day horizon, the engine stores
`forecast_quantity = 63`, `safety_stock = 13` but `total_needed = 75`
(the banker's rounding of the pre-rounding total 75.214…), so
`total_needed = forecast_quantity + safety_stock` fails: 63 + 13 = 76 ≠ 75. -/
theorem c5_total_needed_counterexample :
    (applyForecasting (6/5) c5data cfg30).toOption.bind (fun r => alookup "A" r.forecasts) =
      some c5f ∧
    c5f.total_needed ≠ c5f.forecast_quantity + c5f.safety_stock := by
  constructor
  · rw [c5eval]
    simp [Except.toOption, alookup]
  · norm_num [c5f]

theorem c5_total_needed_amended_witness :
    |c5f.total_needed - (c5f.forecast_quantity + c5f.safety_stock)| ≤ 1 :=
  (c5_total_needed_amended (6/5) c5data cfg30
    { forecasts := [("A", c5f)], method := "linear_regression" } c5eval "A" c5f
    (by simp)).2

theorem c2fg : forecastGroup (6/5) cfg30 c2data = .ok (some c2f) := by
  norm_num [forecastGroup, c2data, c2row, cfg30, indexList, List.range_succ, calcLinReg,
    List.zip, codePredictions, calcForecastConfidence, npSub, listMean, pyRound1, pyRound0,
    pyRoundInt, c2f]

theorem c2eval : applyForecasting (6/5) c2data cfg30 =
    .ok { forecasts := [("A", c2f)], method := "linear_regression" } := by
  have hgroup : groupByProduct c2data = [("A", c2data)] := rfl
  have hne : ¬ (c2data.isEmpty = true) := by simp [c2data]
  rw [applyForecasting, if_neg hne, hgroup, forecastGroups, c2fg]
  rfl

theorem c2specR2 : specR2 [0, 1, 2, 3, 4, 5, 6] = 1 := by
  norm_num [specR2, specSlope, specIntercept, specNum, specDen, specXMean, specYMean,
    Finset.sum_range_succ]

/-- C2 (code evaluation at the failing input): on the perfectly linear
seven-observation history `[0,1,2,3,4,5,6]` (30-day horizon, multiplier
1.2), the spec's confidence — R² of the fit over the observed window — is
1, but the code computes the residuals against the first seven *projected
future* points (`predictions[:len(quantities)]`, the fitted values at
indices 7..13, not 0..6), yielding a clamped confidence of 0. -/
theorem c2_confidence_not_spec_r2 :
    ((applyForecasting (6/5) c2data cfg30).toOption.bind
        (fun r => alookup "A" r.forecasts)).map Forecast.confidence = some 0 ∧
    specR2 [0, 1, 2, 3, 4, 5, 6] = 1 ∧ (0 : ℚ) ≠ 1 := by
  refine ⟨?_, c2specR2, by norm_num⟩
  rw [c2eval]
  simp [Except.toOption, alookup, c2f]

theorem alookup_mem {β : Type} {k : String} {v : β} :
    ∀ {l : List (String × β)}, alookup k l = some v → (k, v) ∈ l
  | [], h => by cases h
  | (k', w) :: t, h => by
    rw [alookup] at h
    by_cases hk : k' = k
    · subst hk
      rw [if_pos rfl] at h
      cases h
      exact List.mem_cons_self _ _
    · rw [if_neg hk] at h
      exact List.mem_cons_of_mem _ (alookup_mem h)

theorem alookup_insertGroup (k : String) (r : XRow) :
    ∀ (acc : List (String × List XRow)) (p : String),
      alookup p (insertGroup k r acc) =
        if p = k then some (((alookup k acc).getD []) ++ [r]) else alookup p acc
  | [], p => by
    by_cases hp : p = k
    · subst hp
      simp [insertGroup, alookup]
    · have hp' : ¬ k = p := fun h => hp h.symm
      simp [insertGroup, alookup, hp, hp']
  | (k', rs) :: t, p => by
    rw [insertGroup]
    by_cases hk : k' = k
    · subst hk
      rw [if_pos rfl]
      by_cases hp : p = k'
      · subst hp
        simp [alookup]
      · have hp' : ¬ k' = p := fun h => hp h.symm
        simp [alookup, hp, hp']
    · rw [if_neg hk]
      by_cases hp : p = k'
      · subst hp
        simp [alookup, hk]
      · have hp' : ¬ k' = p := fun h => hp h.symm
        rw [alookup, if_neg hp', alookup_insertGroup k r t p]
        by_cases hpk : p = k
        · rw [if_pos hpk, if_pos hpk]
          rw [alookup, if_neg hk]
        · rw [if_neg hpk, if_neg hpk]
          rw [alookup, if_neg hp']

theorem groupByProduct_append (data : List XRow) (r : XRow) :
    groupByProduct (data ++ [r]) = insertGroup (groupKey r) r (groupByProduct data) := by
  simp [groupByProduct, List.foldl_append]

theorem groupByProduct_lookup (data : List XRow) (p : String) :
    alookup p (groupByProduct data) =
      if data.filter (fun r => groupKey r == p) = [] then none
      else some (data.filter (fun r => groupKey r == p)) := by
  induction data using List.reverseRecOn with
  | nil => simp [groupByProduct, alookup]
  | append_singleton data r ih =>
    rw [groupByProduct_append, alookup_insertGroup, List.filter_append]
    by_cases hp : p = groupKey r
    · have hbeq : (groupKey r == p) = true := by
        rw [beq_iff_eq, hp]
      have hr : (List.filter (fun x => groupKey x == p) [r]) = [r] := by
        simp [hbeq]
      rw [if_pos hp, ← hp, ih, hr]
      by_cases hfil : data.filter (fun x => groupKey x == p) = []
      · rw [if_pos hfil, hfil]
        simp
      · rw [if_neg hfil]
        simp only [Option.getD_some]
        rw [if_neg (by simp)]
    · have hp' : ¬ (groupKey r == p) = true := by
        simp only [beq_iff_eq]
        exact fun h => hp h.symm
      have hr : (List.filter (fun x => groupKey x == p) [r]) = [] := by
        simp [hp']
      rw [if_neg hp, ih, hr, List.append_nil]

theorem insertGroup_keys (k : String) (r : XRow) :
    ∀ acc : List (String × List XRow),
      (insertGroup k r acc).map Prod.fst =
        if k ∈ acc.map Prod.fst then acc.map Prod.fst else acc.map Prod.fst ++ [k]
  | [] => by simp [insertGroup]
  | (k', rs) :: t => by
    rw [insertGroup]
    by_cases hk : k' = k
    · subst hk
      simp
    · have hk' : ¬ k = k' := fun h => hk h.symm
      rw [if_neg hk]
      by_cases hmem : k ∈ t.map Prod.fst
      · simp [insertGroup_keys k r t, hmem, hk']
      · simp [insertGroup_keys k r t, hmem, hk']

theorem groupByProduct_keys_nodup (data : List XRow) :
    ((groupByProduct data).map Prod.fst).Nodup := by
  induction data using List.reverseRecOn with
  | nil => simp [groupByProduct]
  | append_singleton data r ih =>
    rw [groupByProduct_append, insertGroup_keys]
    by_cases hmem : groupKey r ∈ (groupByProduct data).map Prod.fst
    · rwa [if_pos hmem]
    · rw [if_neg hmem]
      simp [List.nodup_append, ih, hmem]

theorem forecastGroups_alookup_none (m : ℚ) (cfg : FConfig) :
    ∀ (groups : List (String × List XRow)) (fx : List (String × Forecast)) (p : String),
      forecastGroups m cfg groups = .ok fx → p ∉ groups.map Prod.fst →
      alookup p fx = none
  | [], fx, p, h, _ => by
    rw [forecastGroups] at h
    cases h
    rfl
  | (k', rows') :: t, fx, p, h, hp => by
    rw [forecastGroups] at h
    have hpt : p ∉ t.map Prod.fst := by
      simp only [List.map_cons, List.mem_cons] at hp
      exact fun hmem => hp (Or.inr hmem)
    have hpk : ¬ k' = p := by
      simp only [List.map_cons, List.mem_cons] at hp
      exact fun hk => hp (Or.inl hk.symm)
    cases hg : forecastGroup m cfg rows' with
    | error e => rw [hg] at h; cases h
    | ok o =>
      cases o with
      | none =>
        rw [hg] at h
        exact forecastGroups_alookup_none m cfg t fx p h hpt
      | some f' =>
        rw [hg] at h
        cases ht : forecastGroups m cfg t with
        | error e => rw [ht] at h; cases h
        | ok fx' =>
          rw [ht] at h
          cases h
          rw [alookup, if_neg hpk]
          exact forecastGroups_alookup_none m cfg t fx' p ht hpt

theorem forecastGroups_alookup (m : ℚ) (cfg : FConfig) :
    ∀ (groups : List (String × List XRow)) (fx : List (String × Forecast)),
      forecastGroups m cfg groups = .ok fx → (groups.map Prod.fst).Nodup →
      ∀ (p : String) (rows : List XRow), alookup p groups = some rows →
        alookup p fx = (match forecastGroup m cfg rows with
          | .ok (some f) => some f
          | _ => none)
  | [], fx, h, hnd, p, rows, hl => by
    rw [alookup] at hl
    cases hl
  | (k', rows') :: t, fx, h, hnd, p, rows, hl => by
    rw [forecastGroups] at h
    rw [alookup] at hl
    have hndt : (t.map Prod.fst).Nodup := by
      simp only [List.map_cons, List.nodup_cons] at hnd
      exact hnd.2
    by_cases hk : k' = p
    · rw [if_pos hk] at hl
      cases hl
      subst hk
      have hknot : k' ∉ t.map Prod.fst := by
        simp only [List.map_cons, List.nodup_cons] at hnd
        exact hnd.1
      cases hg : forecastGroup m cfg rows' with
      | error e => rw [hg] at h; cases h
      | ok o =>
        cases o with
        | none =>
          rw [hg] at h
          rw [forecastGroups_alookup_none m cfg t fx k' h hknot]
        | some f' =>
          rw [hg] at h
          cases ht : forecastGroups m cfg t with
          | error e => rw [ht] at h; cases h
          | ok fx' =>
            rw [ht] at h
            cases h
            rw [alookup, if_pos rfl]
    · rw [if_neg hk] at hl
      cases hg : forecastGroup m cfg rows' with
      | error e => rw [hg] at h; cases h
      | ok o =>
        cases o with
        | none =>
          rw [hg] at h
          exact forecastGroups_alookup m cfg t fx h hndt p rows hl
        | some f' =>
          rw [hg] at h
          cases ht : forecastGroups m cfg t with
          | error e => rw [ht] at h; cases h
          | ok fx' =>
            rw [ht] at h
            cases h
            rw [alookup, if_neg hk]
            exact forecastGroups_alookup m cfg t fx' ht hndt p rows hl

theorem forecastGroups_ok_each (m : ℚ) (cfg : FConfig) :
    ∀ (groups : List (String × List XRow)) (fx : List (String × Forecast)),
      forecastGroups m cfg groups = .ok fx →
      ∀ k rows, (k, rows) ∈ groups → ∃ o, forecastGroup m cfg rows = .ok o
  | [], fx, h, k, rows, hmem => by simp at hmem
  | (k', rows') :: t, fx, h, k, rows, hmem => by
    rw [forecastGroups] at h
    cases hg : forecastGroup m cfg rows' with
    | error e => rw [hg] at h; cases h
    | ok o =>
      rcases List.mem_cons.mp hmem with hhead | htail
      · cases hhead
        exact ⟨o, hg⟩
      · cases o with
        | none =>
          rw [hg] at h
          exact forecastGroups_ok_each m cfg t fx h k rows htail
        | some f' =>
          rw [hg] at h
          cases ht : forecastGroups m cfg t with
          | error e => rw [ht] at h; cases h
          | ok fx' => exact forecastGroups_ok_each m cfg t fx' ht k rows htail

theorem forecastGroup_skip (m : ℚ) (cfg : FConfig) (rows : List XRow)
    (h : (rows.map (fun r => r.quantity.getD 0)).length < 7) :
    forecastGroup m cfg rows = .ok none := by
  rw [forecastGroup, if_pos h]

theorem forecastGroup_some_of_ge (m : ℚ) (cfg : FConfig) (rows : List XRow)
    (h7 : ¬ (rows.map (fun r => r.quantity.getD 0)).length < 7)
    (o : Option Forecast) (h : forecastGroup m cfg rows = .ok o) :
    ∃ f, o = some f := by
  rw [forecastGroup, if_neg h7] at h
  simp only [] at h
  split at h
  · cases h
  · cases h
    exact ⟨_, rfl⟩

/-- C6: for every execution with forecasting applied (over row sets in
which every row carries a product name, the shape all of this program's
data sources produce), every row whose product has at least 7
observations in the input carries a nested forecast object, and every row
whose product has fewer than 7 observations is returned completely
unchanged (silently excluded, not an error); and an empty input data set
yields an empty result without error. -/
theorem c6_insufficient_history_skipped :
    (∀ (m : ℚ) (data : List XRow) (plan : ExecPlan),
      (∀ r ∈ data, r.product_name ≠ none) →
      (executeOnData m data plan).forecast_applied = true →
      ((executeOnData m data plan).data.length = data.length ∧
        ∀ (i : ℕ) (r : XRow) (p : String), data[i]? = some r → r.product_name = some p →
          ((7 ≤ countProduct data p →
              ∃ f, (executeOnData m data plan).data[i]? = some { r with forecast := some f }) ∧
            (countProduct data p < 7 → (executeOnData m data plan).data[i]? = some r)))) ∧
    (∀ (m : ℚ) (plan : ExecPlan),
      executeOnData m [] plan =
        { data := [], forecast_applied := plan.requires_forecast, row_count := 0,
          error := none }) := by
  constructor
  · intro m data plan hnamed happ
    by_cases hreq : plan.requires_forecast = true
    · cases hA : applyForecasting m data (plan.forecast_config.getD {}) with
      | error e =>
        rw [executeOnData, if_pos hreq, hA] at happ
        simp at happ
      | ok fr =>
        have hres : executeOnData m data plan =
            { data := mergeForecastWithData data fr, forecast_applied := true,
              row_count := (mergeForecastWithData data fr).length, error := none } := by
          rw [executeOnData, if_pos hreq, hA]
        constructor
        · rw [hres]
          simp [mergeForecastWithData]
        · intro i r p hi hp
          rw [hres]
          dsimp only []
          have hmi : (mergeForecastWithData data fr)[i]? = some (mergeRow fr.forecasts r) := by
            simp [mergeForecastWithData, List.getElem?_map, hi]
          have hrmem : r ∈ data := by
            obtain ⟨hil, hget⟩ := List.getElem?_eq_some.mp hi
            exact hget ▸ List.getElem_mem hil
          have hne : ¬ (data.isEmpty = true) := by
            cases data with
            | nil => simp at hi
            | cons a t => simp
          rw [applyForecasting, if_neg hne] at hA
          cases hG : forecastGroups m (plan.forecast_config.getD {}) (groupByProduct data) with
          | error e => rw [hG] at hA; cases hA
          | ok fx =>
            rw [hG] at hA
            cases hA
            have hfeq : data.filter (fun x => groupKey x == p) =
                data.filter (fun x => x.product_name == some p) := by
              apply List.filter_congr
              intro x hx
              cases hq : x.product_name with
              | none => exact absurd hq (hnamed x hx)
              | some q => simp [groupKey, hq]
            have hmemfil : r ∈ data.filter (fun x => groupKey x == p) :=
              List.mem_filter.mpr ⟨hrmem, by simp [groupKey, hp]⟩
            have hfilne : data.filter (fun x => groupKey x == p) ≠ [] :=
              List.ne_nil_of_mem hmemfil
            have hlook : alookup p (groupByProduct data) =
                some (data.filter (fun x => groupKey x == p)) := by
              rw [groupByProduct_lookup, if_neg hfilne]
            have hcount : (data.filter (fun x => groupKey x == p)).length =
                countProduct data p := by
              rw [hfeq, countProduct]
            have hfx := forecastGroups_alookup m (plan.forecast_config.getD {})
              (groupByProduct data) fx hG (groupByProduct_keys_nodup data) p _ hlook
            constructor
            · intro hge
              have h7 : ¬ ((data.filter (fun x => groupKey x == p)).map
                  (fun r => r.quantity.getD 0)).length < 7 := by
                rw [List.length_map, hcount]
                omega
              have hmemG : (p, data.filter (fun x => groupKey x == p)) ∈ groupByProduct data :=
                alookup_mem hlook
              obtain ⟨o, ho⟩ := forecastGroups_ok_each m (plan.forecast_config.getD {})
                (groupByProduct data) fx hG p _ hmemG
              obtain ⟨f, hf⟩ := forecastGroup_some_of_ge m (plan.forecast_config.getD {})
                _ h7 o ho
              subst hf
              rw [ho] at hfx
              refine ⟨f, ?_⟩
              rw [hmi, mergeRow_char]
              simp [hp, hfx]
            · intro hlt
              have h7 : ((data.filter (fun x => groupKey x == p)).map
                  (fun r => r.quantity.getD 0)).length < 7 := by
                rw [List.length_map, hcount]
                omega
              have hskip := forecastGroup_skip m (plan.forecast_config.getD {}) _ h7
              rw [hskip] at hfx
              rw [hmi, mergeRow_char]
              simp [hp, hfx]
    · rw [executeOnData, if_neg hreq] at happ
      simp at happ
  · intro m plan
    by_cases hreq : plan.requires_forecast = true
    · rw [executeOnData, if_pos hreq, applyForecasting]
      rw [if_pos (by simp)]
      rw [hreq]
      rfl
    · rw [executeOnData, if_neg hreq]
      have hfalse : plan.requires_forecast = false := by
        cases h : plan.requires_forecast
        · rfl
        · exact absurd h hreq
      rw [hfalse]
      rfl

theorem c6eval : applyForecasting (6/5) c6data cfg30 =
    .ok { forecasts := [("A", c5f)], method := "linear_regression" } := by
  have hgroup : groupByProduct c6data = [("A", c5data), ("B", [c6rowB])] := rfl
  have hne : ¬ (c6data.isEmpty = true) := by simp [c6data, c5data]
  have hB : forecastGroup (6/5) cfg30 [c6rowB] = .ok none := rfl
  rw [applyForecasting, if_neg hne, hgroup, forecastGroups, c5fg, forecastGroups, hB,
    forecastGroups]

theorem c6happ : (executeOnData (6/5) c6data plan6).forecast_applied = true := by
  have hcfg : plan6.forecast_config.getD {} = cfg30 := rfl
  rw [executeOnData, if_pos (show plan6.requires_forecast = true from rfl), hcfg, c6eval]

theorem c6_insufficient_history_skipped_witness :
    (∃ f, (executeOnData (6/5) c6data plan6).data[0]? =
      some { c5row 1 with forecast := some f }) ∧
    (executeOnData (6/5) c6data plan6).data[7]? = some c6rowB := by
  have h := c6_insufficient_history_skipped.1 (6/5) c6data plan6 (by decide) c6happ
  constructor
  · exact (h.2 0 (c5row 1) "A" rfl rfl).1 (by decide)
  · exact (h.2 7 c6rowB "B" rfl rfl).2 (by decide)
